import Mathlib

/-!
Verification development for the `cvh-icons` desktop-icon daemon
(CodeVerseLinuxDistro).  The definitions below are a shallow embedding of
`src/cvh-icons/src/wayland/mod.rs` (the compositor client `WaylandState`) and
`src/cvh-icons/src/daemon/mod.rs` (the `IconDaemon`).  External collaborators
(the Lua script runtime, the `tiny_skia` rasteriser, the shared-memory
allocator, the filesystem and the compositor) are modelled as explicit
parameters/oracles of the operations that call into them, so that every
operation of the core itself is a pure, executable Lean function.
-/

set_option maxRecDepth 8192

namespace CvhIcons

/-! ### Association lists, the model of Rust `HashMap` -/

/-- Lookup in an association list, mirroring `HashMap::get`. -/
def lookupA {α β : Type} [DecidableEq α] : List (α × β) → α → Option β
  | [], _ => none
  | e :: rest, k => if e.1 = k then some e.2 else lookupA rest k

/-- Remove a key from an association list, mirroring `HashMap::remove`. -/
def eraseA {α β : Type} [DecidableEq α] : List (α × β) → α → List (α × β)
  | [], _ => []
  | e :: rest, k => if e.1 = k then eraseA rest k else e :: eraseA rest k

/-- Insert a binding, mirroring `HashMap::insert` (replaces any previous
binding for the key, so keys stay unique). -/
def insertA {α β : Type} [DecidableEq α] (l : List (α × β)) (k : α) (v : β) :
    List (α × β) :=
  (k, v) :: eraseA l k

/-! ### Wayland compositor client (`wayland/mod.rs`) -/

/-- Per-icon input events produced by the pointer handler
(`wayland/mod.rs`, `enum InputEvent`).  The `x`/`y` coordinates are `f64`
payloads in the source; the daemon never computes with them (they are only
carried around and logged), so they are represented by an opaque integer
payload here. -/
inductive InputEvent where
  | pointerEnter (surface_id : Nat) (x y : Int)
  | pointerLeave (surface_id : Nat)
  | pointerMotion (surface_id : Nat) (x y : Int)
  | pointerButton (surface_id : Nat) (button : Nat) (pressed : Bool) (x y : Int)
deriving DecidableEq, Repr

/-- Per-surface record (`wayland/mod.rs`, `struct IconSurfaceData`).  The
`buffer : Option<Buffer>` field is modelled by the byte contents of the
last-attached canvas. -/
structure IconSurfaceData where
  width : Nat
  height : Nat
  configured : Bool
  buffer : Option (List Nat)
  position_x : Int
  position_y : Int
deriving DecidableEq, Repr

/-- The compositor-client state (`wayland/mod.rs`, `struct WaylandState`).
Protocol-plumbing fields (registry, queue handle, pools, seats, outputs)
carry no verified behaviour and are omitted; `surface_ids`
(`WlSurface -> SurfaceId`) is the inverse of the identity embedding used
here, so the `surfaces` map alone represents both. -/
structure WaylandState where
  surfaces : List (Nat × IconSurfaceData)
  next_surface_id : Nat
  input_events : List InputEvent
  exit : Bool
deriving DecidableEq, Repr

/-- `WaylandState::create_surface`.  The Rust function returns
`Result<SurfaceId>` but has no failing path: every call returns `Ok`, so the
model returns the new state and the id directly. -/
def WaylandState.create_surface (s : WaylandState) (x y : Int)
    (width height : Nat) : WaylandState × Nat :=
  let sid := s.next_surface_id
  let surface_data : IconSurfaceData :=
    { width := width, height := height, configured := false, buffer := none,
      position_x := x, position_y := y }
  ({ s with next_surface_id := sid + 1,
            surfaces := insertA s.surfaces sid surface_data }, sid)

/-- `WaylandState::destroy_surface`. -/
def WaylandState.destroy_surface (s : WaylandState) (surface_id : Nat) :
    WaylandState :=
  { s with surfaces := eraseA s.surfaces surface_id }

/-- `WaylandState::set_surface_position`. -/
def WaylandState.set_surface_position (s : WaylandState) (surface_id : Nat)
    (x y : Int) : WaylandState :=
  match lookupA s.surfaces surface_id with
  | none => s
  | some surface_data =>
    let surface_data := { surface_data with position_x := x, position_y := y }
    { s with surfaces := insertA s.surfaces surface_id surface_data }

/-- The RGBA-to-ARGB8888 channel swap executed by the copy loop inside
`WaylandState::attach_buffer`: each 4-byte chunk `r,g,b,a` of the source is
written to the canvas as `b,g,r,a`.  (The loop is only reached after the
`len(pixels) == 4*w*h` check, so the input length is a multiple of 4; the
catch-all arm is unreachable there.) -/
def convertRgbaToArgb : List Nat → List Nat
  | r :: g :: b :: a :: rest => b :: g :: r :: a :: convertRgbaToArgb rest
  | rest => rest

/-- Failure kinds of `WaylandState::attach_buffer` (the `anyhow` error
messages in the source): a missing surface id, the buffer-size check, and a
failure of the shared-memory buffer machinery. -/
inductive AttachError where
  | surfaceNotFound
  | sizeMismatch
  | allocator
deriving DecidableEq, Repr

/-- `WaylandState::attach_buffer`.  `allocOk` is the outcome of the external
shared-memory machinery (`SlotPool::create_buffer` / `Buffer::attach_to`).
On success the result carries `some canvas` when a buffer was actually
attached, and `none` when the attach was skipped because the surface is not
yet configured (the source logs and returns `Ok(())` in that case). -/
def WaylandState.attach_buffer (s : WaylandState) (surface_id : Nat)
    (pixels : List Nat) (width height : Nat) (allocOk : Bool) :
    Except AttachError (WaylandState × Option (List Nat)) :=
  match lookupA s.surfaces surface_id with
  | none => .error .surfaceNotFound
  | some surface_data =>
    if !surface_data.configured then
      -- "Wait for configure event before attaching buffer": skip silently.
      .ok (s, none)
    else if pixels.length ≠ width * height * 4 then
      .error .sizeMismatch
    else if !allocOk then
      .error .allocator
    else
      let canvas := convertRgbaToArgb pixels
      let surface_data := { surface_data with buffer := some canvas }
      .ok ({ s with surfaces := insertA s.surfaces surface_id surface_data },
        some canvas)

/-- `LayerShellHandler::configure` for a layer surface of id `surface_id`:
sizes `> 0` replace the stored size, and the configured bit is set. -/
def WaylandState.configure (s : WaylandState) (surface_id : Nat)
    (new_w new_h : Nat) : WaylandState :=
  match lookupA s.surfaces surface_id with
  | none => s
  | some surface_data =>
    let surface_data :=
      { surface_data with
          width := if new_w > 0 then new_w else surface_data.width,
          height := if new_h > 0 then new_h else surface_data.height,
          configured := true }
    { s with surfaces := insertA s.surfaces surface_id surface_data }

/-- `LayerShellHandler::closed`: the compositor closed the layer surface and
both map entries for it are dropped. -/
def WaylandState.closed_surface (s : WaylandState) (surface_id : Nat) :
    WaylandState :=
  { s with surfaces := eraseA s.surfaces surface_id }

/-- Compositor-originated events delivered during a dispatch: a configure,
a close, or a pointer event appended to the input queue by the pointer
handler. -/
inductive ServerEvent where
  | configureEv (surface_id : Nat) (new_w new_h : Nat)
  | closedEv (surface_id : Nat)
  | pointerEv (ev : InputEvent)
deriving DecidableEq, Repr

/-- Apply one compositor-originated event to the client state. -/
def WaylandState.apply_server_event (s : WaylandState) :
    ServerEvent → WaylandState
  | .configureEv sid w h => s.configure sid w h
  | .closedEv sid => s.closed_surface sid
  | .pointerEv ev => { s with input_events := s.input_events ++ [ev] }

/-- Client- and compositor-side operations on a `WaylandState`, used to
describe states reachable within one run of the client. -/
inductive WOp where
  | createOp (x y : Int) (w h : Nat)
  | destroyOp (surface_id : Nat)
  | setPosOp (surface_id : Nat) (x y : Int)
  | attachOp (surface_id : Nat) (pixels : List Nat) (w h : Nat) (allocOk : Bool)
  | configureOp (surface_id : Nat) (new_w new_h : Nat)
  | closedOp (surface_id : Nat)

/-- One step of the compositor-client state machine.  A failed attach leaves
the state unchanged (the error is reported to the caller). -/
def WaylandState.stepW (s : WaylandState) : WOp → WaylandState
  | .createOp x y w h => (s.create_surface x y w h).1
  | .destroyOp sid => s.destroy_surface sid
  | .setPosOp sid x y => s.set_surface_position sid x y
  | .attachOp sid pixels w h allocOk =>
    match s.attach_buffer sid pixels w h allocOk with
    | .ok (s', _) => s'
    | .error _ => s
  | .configureOp sid w h => s.configure sid w h
  | .closedOp sid => s.closed_surface sid

/-- The state produced by `WaylandManager::new`: no surfaces, surface-id
counter starting at 1, empty input queue, exit flag clear. -/
def initWayland : WaylandState :=
  { surfaces := [], next_surface_id := 1, input_events := [], exit := false }

/-- Run a sequence of operations from the freshly connected client state. -/
def runW (ops : List WOp) : WaylandState :=
  ops.foldl WaylandState.stepW initWayland

/-! ### Icon daemon (`daemon/mod.rs`) -/

/-- Height reserved for the label area below the icon
(`daemon/mod.rs`, `const LABEL_HEIGHT`). -/
def LABEL_HEIGHT : Nat := 24

/-- The two configuration values the daemon core reads (`config.icon_size`,
`config.grid_spacing`).  The `Config` type itself lives in the `config`
module, which is not among the sources. -/
structure Config where
  icon_size : Nat
  grid_spacing : Nat
deriving DecidableEq, Repr

/-- The daemon-visible state of a `DesktopIcon`: the hover flag toggled by
pointer enter/leave.  Classification and the script-process handle live in
the external `icons` module and do not influence the verified operations. -/
structure DesktopIcon where
  hovered : Bool
deriving DecidableEq, Repr

/-- A filesystem path, as the daemon uses it: a parent directory plus the
final component.  `Path::file_name()` returns `None` for paths such as
`..`, hence the optional component. -/
structure FsPath where
  parent : List Char
  name : Option (List Char)
deriving DecidableEq, Repr

/-- The hidden-entry test from `scan_desktop`:
`path.file_name().and_then(|n| n.to_str()).map(|n| n.starts_with('.')).unwrap_or(false)`. -/
def startsWithDot : Option (List Char) → Bool
  | some (c :: _) => c = '.'
  | _ => false

/-- Modelled from the spec: `DesktopIcon::request_position` lives in the
`icons` module, which is not among the sources.  The spec describes a
deterministic grid - cells laid out left-to-right, top-to-bottom from a
fixed inset, wrapping to the next row when `x + cell_w` would exceed the
screen width; `total` and `screen_h` may be ignored by a minimal
implementation. -/
def request_position (screen_w screen_h total index cell_w cell_h : Nat) :
    Int × Int :=
  let inset : Nat := 0
  let _ := screen_h
  let _ := total
  let cols := max ((screen_w - inset) / max cell_w 1) 1
  let col := index % cols
  let row := index / cols
  (((inset + col * cell_w : Nat) : Int), ((inset + row * cell_h : Nat) : Int))

/-- The daemon state (`daemon/mod.rs`, `struct IconDaemon`).  The watcher
and its channel sender are handles to the external notification source and
carry no state the verified operations read. -/
structure IconDaemon where
  config : Config
  desktop_dir : List Char
  icons : List (FsPath × DesktopIcon)
  wayland : Option WaylandState
  surface_to_path : List (Nat × FsPath)
  path_to_surface : List (FsPath × Nat)
  screen_width : Nat
  screen_height : Nat
  needs_render : Bool
deriving DecidableEq, Repr

/-- `IconDaemon::add_icon`.  `DesktopIcon::new` (external `icons` module)
constructs the icon; the Lua-process spawn is external and its failure only
selects fallback rendering, so neither appears in the state.  Surface
creation, when a Wayland manager exists, always succeeds (see
`create_surface`), and inserts into both halves of the bimap. -/
def IconDaemon.add_icon (d : IconDaemon) (path : FsPath) : IconDaemon :=
  if (lookupA d.icons path).isSome then d
  else
    let icon : DesktopIcon := { hovered := false }
    let surface_height := d.config.icon_size + LABEL_HEIGHT
    let cell_width := d.config.icon_size + d.config.grid_spacing
    let cell_height := surface_height + d.config.grid_spacing
    let icon_count := d.icons.length
    let pos := request_position d.screen_width d.screen_height
      (icon_count + 1) icon_count cell_width cell_height
    match d.wayland with
    | some w =>
      let res := w.create_surface pos.1 pos.2 d.config.icon_size surface_height
      { d with wayland := some res.1,
               surface_to_path := insertA d.surface_to_path res.2 path,
               path_to_surface := insertA d.path_to_surface path res.2,
               icons := insertA d.icons path icon }
    | none => { d with icons := insertA d.icons path icon }

/-- `IconDaemon::remove_icon`: drop the icon (killing its Lua process is
external), then, if it had a surface, destroy the surface and erase both
map entries. -/
def IconDaemon.remove_icon (d : IconDaemon) (path : FsPath) : IconDaemon :=
  match lookupA d.icons path with
  | none => d
  | some _ =>
    let d1 := { d with icons := eraseA d.icons path }
    match lookupA d1.path_to_surface path with
    | none => d1
    | some surface_id =>
      { d1 with
          path_to_surface := eraseA d1.path_to_surface path,
          wayland := d1.wayland.map (fun w => w.destroy_surface surface_id),
          surface_to_path := eraseA d1.surface_to_path surface_id }

/-- The event kinds `handle_fs_event` distinguishes (`notify::EventKind`);
everything else falls into the wildcard arm. -/
inductive FsEventKind where
  | createK
  | removeK
  | modifyK
  | otherK
deriving DecidableEq, Repr

/-- A filesystem notification: a kind plus the list of affected paths. -/
structure FsEvent where
  kind : FsEventKind
  paths : List FsPath
deriving DecidableEq, Repr

/-- `IconDaemon::handle_fs_event`. -/
def IconDaemon.handle_fs_event (d : IconDaemon) (e : FsEvent) : IconDaemon :=
  match e.kind with
  | .createK =>
    { e.paths.foldl IconDaemon.add_icon d with needs_render := true }
  | .removeK =>
    { e.paths.foldl IconDaemon.remove_icon d with needs_render := true }
  | .modifyK =>
    let d' := e.paths.foldl
      (fun s p =>
        if (lookupA s.icons p).isSome then (s.remove_icon p).add_icon p else s)
      d
    { d' with needs_render := true }
  | .otherK => d

/-- `IconDaemon::scan_desktop`.  The directory listing is external state:
`dir_exists` is the `self.desktop_dir.exists()` check and `entries` the
entries yielded by `read_dir`.  Hidden names are skipped. -/
def IconDaemon.scan_desktop (d : IconDaemon) (dir_exists : Bool)
    (entries : List FsPath) : IconDaemon :=
  if !dir_exists then d
  else
    entries.foldl
      (fun s p => if startsWithDot p.name then s else s.add_icon p) d

/-- `IconDaemon::update_icons`: collect the paths whose `icon.update()`
(external: a filesystem stat) failed, then remove them after the
iteration.  `gone` is the outcome of the external update call. -/
def IconDaemon.update_icons (d : IconDaemon) (gone : FsPath → Bool) :
    IconDaemon :=
  let to_remove := (d.icons.map Prod.fst).filter gone
  to_remove.foldl IconDaemon.remove_icon d

/-- The button-code normalisation in `handle_wayland_input`: kernel evdev
codes 272/273/274 become 1/3/2; every other code passes through. -/
def translate_button (button : Nat) : Nat :=
  if button = 272 then 1
  else if button = 273 then 3
  else if button = 274 then 2
  else button

/-- One iteration of the event loop inside `handle_wayland_input`.  The
accumulator carries the daemon state together with the list of `on_click`
invocations (path, normalised button) performed so far; `clickOk` is the
result of the external `icon.on_click` call (`Ok` sets the dirty flag,
`Err` is only logged). -/
def IconDaemon.handle_one_input (clickOk : FsPath → Nat → Bool)
    (acc : IconDaemon × List (FsPath × Nat)) (ev : InputEvent) :
    IconDaemon × List (FsPath × Nat) :=
  let d := acc.1
  let clicks := acc.2
  match ev with
  | .pointerEnter sid _ _ =>
    (match lookupA d.surface_to_path sid with
     | some path =>
       match lookupA d.icons path with
       | some icon =>
         ({ d with icons := insertA d.icons path ({ icon with hovered := true }),
                   needs_render := true }, clicks)
       | none => (d, clicks)
     | none => (d, clicks))
  | .pointerLeave sid =>
    (match lookupA d.surface_to_path sid with
     | some path =>
       match lookupA d.icons path with
       | some icon =>
         ({ d with icons := insertA d.icons path ({ icon with hovered := false }),
                   needs_render := true }, clicks)
       | none => (d, clicks)
     | none => (d, clicks))
  | .pointerMotion _ _ _ => (d, clicks)
  | .pointerButton sid button pressed _ _ =>
    if pressed then
      match lookupA d.surface_to_path sid with
      | some path =>
        match lookupA d.icons path with
        | some _ =>
          let button_num := translate_button button
          let d' :=
            if clickOk path button_num then { d with needs_render := true }
            else d
          (d', clicks ++ [(path, button_num)])
        | none => (d, clicks)
      | none => (d, clicks)
    else (d, clicks)

/-- The `for event in events` loop of `IconDaemon::handle_wayland_input`,
applied to an already-drained event list. -/
def IconDaemon.handle_input_events (d : IconDaemon) (events : List InputEvent)
    (clickOk : FsPath → Nat → Bool) : IconDaemon × List (FsPath × Nat) :=
  events.foldl (IconDaemon.handle_one_input clickOk) (d, [])

/-- `IconDaemon::handle_wayland_input`: drain the input queue of the
Wayland manager (if any) and process each event. -/
def IconDaemon.handle_wayland_input (d : IconDaemon)
    (clickOk : FsPath → Nat → Bool) : IconDaemon × List (FsPath × Nat) :=
  match d.wayland with
  | none => (d, [])
  | some w =>
    let events := w.input_events
    let d0 := { d with wayland := some { w with input_events := [] } }
    d0.handle_input_events events clickOk

/-- The per-icon body of the render loop in
`IconDaemon::render_icons_to_surfaces`.  `rasterOk` is the outcome of the
external `renderer.execute_commands` call, `pixelsOf` the pixel data of the
rasterised pixmap, `allocOk` the buffer-machinery outcome; a failure at any
stage skips the icon (`warn` and continue). -/
def IconDaemon.render_one (d : IconDaemon) (rasterOk : FsPath → Bool)
    (pixelsOf : FsPath → List Nat) (allocOk : FsPath → Bool)
    (path : FsPath) : IconDaemon :=
  let icon_size := d.config.icon_size
  let surface_height := icon_size + LABEL_HEIGHT
  match lookupA d.path_to_surface path with
  | none => d
  | some surface_id =>
    if (lookupA d.icons path).isNone then d
    else if icon_size = 0 then d
      -- `tiny_skia::Pixmap::new` returns `None` for a zero dimension
      -- (the height `icon_size + 24` is always positive).
    else if !(rasterOk path) then d
    else
      match d.wayland with
      | some w =>
        match w.attach_buffer surface_id (pixelsOf path) icon_size
            surface_height (allocOk path) with
        | .ok res => { d with wayland := some res.1 }
        | .error _ => d
      | none => d

/-- `IconDaemon::render_icons_to_surfaces`: skip entirely without a Wayland
connection or with a clear dirty flag; otherwise render every icon that has
a surface and clear the dirty flag at the end of the pass. -/
def IconDaemon.render_icons_to_surfaces (d : IconDaemon)
    (rasterOk : FsPath → Bool) (pixelsOf : FsPath → List Nat)
    (allocOk : FsPath → Bool) : IconDaemon :=
  if d.wayland.isNone || !d.needs_render then d
  else
    let paths := d.icons.map Prod.fst
    let d' := paths.foldl
      (fun s p => s.render_one rasterOk pixelsOf allocOk p) d
    { d' with needs_render := false }

/-- The reposition loop of `IconDaemon::reposition_all_icons`. -/
def IconDaemon.reposition_all_icons (d : IconDaemon) : IconDaemon :=
  let surface_height := d.config.icon_size + LABEL_HEIGHT
  let cell_width := d.config.icon_size + d.config.grid_spacing
  let cell_height := surface_height + d.config.grid_spacing
  let icon_count := d.icons.length
  let pairs := d.path_to_surface.enum
  pairs.foldl
    (fun s pr =>
      if (lookupA s.icons pr.2.1).isSome then
        let pos := request_position s.screen_width s.screen_height icon_count
          pr.1 cell_width cell_height
        match s.wayland with
        | some w =>
          { s with wayland := some (w.set_surface_position pr.2.2 pos.1 pos.2) }
        | none => s
      else s)
    d

/-- `IconDaemon::update_screen_dimensions`: poll the primary-output
dimensions (`dims` is the result of the external
`get_output_dimensions`); on a change, store them, reposition every icon
and set the dirty flag. -/
def IconDaemon.update_screen_dimensions (d : IconDaemon)
    (dims : Option (Nat × Nat)) : IconDaemon :=
  match d.wayland with
  | none => d
  | some _ =>
    let nw := (dims.getD (d.screen_width, d.screen_height)).1
    let nh := (dims.getD (d.screen_width, d.screen_height)).2
    if nw = d.screen_width ∧ nh = d.screen_height then d
    else
      let d' := { d with screen_width := nw, screen_height := nh }
      { d'.reposition_all_icons with needs_render := true }

/-- `IconDaemon::dispatch_wayland`: pump compositor events into the
Wayland manager, if one exists. -/
def IconDaemon.dispatch_wayland (d : IconDaemon) (evs : List ServerEvent) :
    IconDaemon :=
  match d.wayland with
  | none => d
  | some w =>
    { d with wayland := some (evs.foldl WaylandState.apply_server_event w) }

/-- The daemon mutations reachable in one run: the two bimap mutations
themselves plus every loop-level operation that invokes them. -/
inductive DOp where
  | addOp (p : FsPath)
  | removeOp (p : FsPath)
  | scanOp (dir_exists : Bool) (entries : List FsPath)
  | fsEventOp (e : FsEvent)
  | inputOp (clickOk : FsPath → Nat → Bool)
  | updateIconsOp (gone : FsPath → Bool)
  | updateDimsOp (dims : Option (Nat × Nat))
  | renderOp (rasterOk : FsPath → Bool) (pixelsOf : FsPath → List Nat)
      (allocOk : FsPath → Bool)
  | dispatchOp (evs : List ServerEvent)

/-- One step of the daemon core. -/
def IconDaemon.stepD (d : IconDaemon) : DOp → IconDaemon
  | .addOp p => d.add_icon p
  | .removeOp p => d.remove_icon p
  | .scanOp ex entries => d.scan_desktop ex entries
  | .fsEventOp e => d.handle_fs_event e
  | .inputOp clickOk => (d.handle_wayland_input clickOk).1
  | .updateIconsOp gone => d.update_icons gone
  | .updateDimsOp dims => d.update_screen_dimensions dims
  | .renderOp rasterOk pixelsOf allocOk =>
    d.render_icons_to_surfaces rasterOk pixelsOf allocOk
  | .dispatchOp evs => d.dispatch_wayland evs

/-- The daemon state built by `IconDaemon::new` before the initial scan:
empty icon table and bimap, dirty flag set, Wayland manager present or not
depending on the environment. -/
def initD (cfg : Config) (hasWayland : Bool) : IconDaemon :=
  { config := cfg, desktop_dir := [], icons := [],
    wayland := if hasWayland then some initWayland else none,
    surface_to_path := [], path_to_surface := [],
    screen_width := 1920, screen_height := 1080, needs_render := true }

/-- Run a sequence of daemon operations. -/
def runD (d : IconDaemon) (ops : List DOp) : IconDaemon :=
  ops.foldl IconDaemon.stepD d

/-- The surface-id counter visible from the daemon (1 when no manager
exists, matching a freshly connected manager). -/
def nextId (d : IconDaemon) : Nat :=
  match d.wayland with
  | some w => w.next_surface_id
  | none => 1

/-- The bimap consistency property of claim C5, together with the auxiliary
facts that make it inductive: every mapped path has an icon, every mapped
surface id is below the id counter, and without a Wayland manager both maps
are empty. -/
def InvD (d : IconDaemon) : Prop :=
  (∀ p sid, lookupA d.path_to_surface p = some sid ↔
    lookupA d.surface_to_path sid = some p) ∧
  (∀ p, (lookupA d.path_to_surface p).isSome →
    (lookupA d.icons p).isSome) ∧
  (∀ sid, (lookupA d.surface_to_path sid).isSome → sid < nextId d) ∧
  (d.wayland = none → d.path_to_surface = [] ∧ d.surface_to_path = [])

/-! ### Concrete states used by the witnesses and counterexamples -/

/-- A visible file `a` on the desktop. -/
def pEx : FsPath := { parent := ['d'], name := some ['a'] }

/-- A hidden file `.h` on the desktop. -/
def hpEx : FsPath := { parent := ['d'], name := some ['.', 'h'] }

/-- A 1x1 surface that has received its configure event. -/
def surfConfigured : IconSurfaceData :=
  { width := 1, height := 1, configured := true, buffer := none,
    position_x := 0, position_y := 0 }

/-- A 1x1 surface still waiting for its first configure event. -/
def surfUnconfigured : IconSurfaceData :=
  { width := 1, height := 1, configured := false, buffer := none,
    position_x := 0, position_y := 0 }

/-- A client state holding one configured surface. -/
def wExC : WaylandState :=
  { surfaces := [(1, surfConfigured)], next_surface_id := 2,
    input_events := [], exit := false }

/-- A client state holding one unconfigured surface. -/
def wExU : WaylandState :=
  { surfaces := [(1, surfUnconfigured)], next_surface_id := 2,
    input_events := [], exit := false }

/-- A daemon with one icon `pEx` owning configured surface 1 and the dirty
flag set. -/
def dEx1 : IconDaemon :=
  { config := { icon_size := 1, grid_spacing := 10 }, desktop_dir := [],
    icons := [(pEx, { hovered := false })],
    wayland := some wExC,
    surface_to_path := [(1, pEx)], path_to_surface := [(pEx, 1)],
    screen_width := 1920, screen_height := 1080, needs_render := true }

/-- The daemon of the repository's `create_test_daemon` helper: no Wayland
manager, empty tables, dirty flag clear. -/
def dEx2 : IconDaemon :=
  { config := { icon_size := 32, grid_spacing := 10 }, desktop_dir := [],
    icons := [], wayland := none,
    surface_to_path := [], path_to_surface := [],
    screen_width := 1920, screen_height := 1080, needs_render := false }

/-- The configured 1x1 surface after a 1x1 RGBA pixel `1,2,3,4` has been
attached: the stored canvas holds the swapped bytes `3,2,1,4`. -/
def surfConfiguredBuf : IconSurfaceData :=
  { width := 1, height := 1, configured := true, buffer := some [3, 2, 1, 4],
    position_x := 0, position_y := 0 }

/-- The client state `wExC` after that attach. -/
def wExCAfter : WaylandState :=
  { surfaces := [(1, surfConfiguredBuf)], next_surface_id := 2,
    input_events := [], exit := false }

/-- A concrete client run: create a 1x1 surface, configure it, attach one
pixel. -/
def opsEx4 : List WOp :=
  [.createOp 0 0 1 1, .configureOp 1 1 1, .attachOp 1 [1, 2, 3, 4] 1 1 true]

/-! ## Theorems -/

/-! ### Association-list lemmas -/

theorem lookupA_eraseA {α β : Type} [DecidableEq α] (l : List (α × β))
    (k k' : α) :
    lookupA (eraseA l k) k' = if k' = k then none else lookupA l k' := by
  induction l with
  | nil => simp [eraseA, lookupA]
  | cons e rest ih =>
    by_cases h1 : e.1 = k
    · by_cases h3 : k' = k
      · subst h3
        simp [eraseA, h1, ih]
      · have h2 : ¬e.1 = k' := by
          rw [h1]; exact fun hh => h3 hh.symm
        have h4 : ¬k = k' := fun hh => h3 hh.symm
        simp [eraseA, lookupA, h1, h2, ih, h3, h4]
    · by_cases h2 : e.1 = k'
      · have h3 : ¬k' = k := by
          rw [← h2]; exact fun hh => h1 hh
        simp [eraseA, lookupA, h1, h2, h3]
      · simp [eraseA, lookupA, h1, h2, ih]

theorem lookupA_insertA {α β : Type} [DecidableEq α] (l : List (α × β))
    (k k' : α) (v : β) :
    lookupA (insertA l k v) k' = if k' = k then some v else lookupA l k' := by
  by_cases h : k = k'
  · subst h; simp [insertA, lookupA]
  · have h' : ¬k' = k := fun hh => h hh.symm
    simp [insertA, lookupA, h, h', lookupA_eraseA]

/-! ### C8: duplicate add is a no-op, remove of an unmapped path is a no-op -/

/-- C8: `add_icon` on a path already in the icon table returns with no state
change (the icon table and icon count are unchanged), and `remove_icon` on
a path not in the icon table changes no state. -/
theorem add_icon_idempotent_remove_icon_total (d : IconDaemon) (p : FsPath) :
    ((lookupA d.icons p).isSome = true → d.add_icon p = d) ∧
    ((lookupA d.icons p).isNone = true → d.remove_icon p = d) := by
  constructor
  · intro h
    simp [IconDaemon.add_icon, h]
  · intro h
    have hl : lookupA d.icons p = none := Option.isNone_iff_eq_none.mp h
    simp [IconDaemon.remove_icon, hl]

theorem add_icon_idempotent_remove_icon_total_witness :
    dEx1.add_icon pEx = dEx1 ∧ dEx2.remove_icon pEx = dEx2 :=
  ⟨(add_icon_idempotent_remove_icon_total dEx1 pEx).1 (by decide),
   (add_icon_idempotent_remove_icon_total dEx2 pEx).2 (by decide)⟩

/-! ### C9: a Modify event is remove-then-add for mapped paths only -/

/-- C9: handling a Modify filesystem event performs, for a path in the icon
table, `remove_icon` followed by `add_icon` (and sets the dirty flag), and
ignores a path not in the table, leaving the icon table - hence the icon
count - unchanged. -/
theorem modify_event_remove_then_add (d : IconDaemon) (p : FsPath) :
    ((lookupA d.icons p).isSome = true →
      d.handle_fs_event { kind := .modifyK, paths := [p] } =
        { (d.remove_icon p).add_icon p with needs_render := true }) ∧
    ((lookupA d.icons p).isNone = true →
      (d.handle_fs_event { kind := .modifyK, paths := [p] }).icons = d.icons) := by
  constructor
  · intro h
    simp [IconDaemon.handle_fs_event, h]
  · intro h
    have hl : (lookupA d.icons p).isSome = false := by
      rw [Option.isNone_iff_eq_none.mp h]; rfl
    simp [IconDaemon.handle_fs_event, hl]

theorem modify_event_remove_then_add_witness :
    dEx1.handle_fs_event { kind := .modifyK, paths := [pEx] } =
      { (dEx1.remove_icon pEx).add_icon pEx with needs_render := true } ∧
    (dEx2.handle_fs_event { kind := .modifyK, paths := [pEx] }).icons =
      dEx2.icons :=
  ⟨(modify_event_remove_then_add dEx1 pEx).1 (by decide),
   (modify_event_remove_then_add dEx2 pEx).2 (by decide)⟩

/-! ### C10: attach on an unknown surface id is a clean error -/

/-- C10: `attach_buffer` called with a surface id absent from the surface
map returns the "Surface not found" error (rather than panicking or
succeeding); the error path mutates nothing. -/
theorem attach_buffer_unknown_surface_errors (s : WaylandState) (sid : Nat)
    (pixels : List Nat) (w h : Nat) (allocOk : Bool)
    (hs : lookupA s.surfaces sid = none) :
    s.attach_buffer sid pixels w h allocOk =
      .error AttachError.surfaceNotFound := by
  simp [WaylandState.attach_buffer, hs]

theorem attach_buffer_unknown_surface_errors_witness :
    wExC.attach_buffer 5 [] 1 1 true = .error AttachError.surfaceNotFound :=
  attach_buffer_unknown_surface_errors wExC 5 [] 1 1 true (by decide)

/-! ### C3: attach on an unconfigured surface -/

/-- C3 counterexample: on a surface that exists but is not configured,
`attach_buffer` does NOT return an error (there is no `NotConfigured`
variant at all): it returns `Ok` and skips the attach. -/
theorem attach_buffer_unconfigured_not_error :
    lookupA wExU.surfaces 1 = some surfUnconfigured ∧
    surfUnconfigured.configured = false ∧
    wExU.attach_buffer 1 [] 1 1 true = .ok (wExU, none) :=
  ⟨by decide, by decide, rfl⟩

/-- C3 (amended): on a surface present in the map whose configured bit is
false, `attach_buffer` returns `Ok` WITHOUT attaching any buffer and
without changing any state (the skip is silent, not a `NotConfigured`
error). -/
theorem attach_buffer_unconfigured_skips (s : WaylandState) (sid : Nat)
    (dta : IconSurfaceData) (pixels : List Nat) (w h : Nat) (allocOk : Bool)
    (hs : lookupA s.surfaces sid = some dta) (hc : dta.configured = false) :
    s.attach_buffer sid pixels w h allocOk = .ok (s, none) := by
  simp [WaylandState.attach_buffer, hs, hc]

theorem attach_buffer_unconfigured_skips_witness :
    wExU.attach_buffer 1 [7] 1 1 false = .ok (wExU, none) :=
  attach_buffer_unconfigured_skips wExU 1 surfUnconfigured [7] 1 1 false
    (by decide) (by decide)

/-! ### C1: the render pass and the dirty flag -/

/-- C1 counterexample: a render pass over a daemon with one icon whose
surface exists and whose rasterisation fails (`rasterOk` is constantly
false) still ends with `needs_render = false`: a per-icon failure does not
leave the dirty flag set. -/
theorem render_pass_failure_still_clears_flag :
    dEx1.needs_render = true ∧
    lookupA dEx1.path_to_surface pEx = some 1 ∧
    (dEx1.render_icons_to_surfaces (fun _ => false) (fun _ => [])
      (fun _ => true)).needs_render = false := by
  refine ⟨rfl, by decide, by decide⟩

/-- C1 (amended): whenever `render_icons_to_surfaces` runs with a Wayland
manager present and the dirty flag set, it clears the flag unconditionally
at the end of the pass - regardless of any per-icon rasterisation or
attach failure; with no manager or a clear flag the pass changes nothing. -/
theorem render_pass_clears_dirty_flag (d : IconDaemon)
    (rasterOk : FsPath → Bool) (pixelsOf : FsPath → List Nat)
    (allocOk : FsPath → Bool) :
    (d.wayland.isSome = true → d.needs_render = true →
      (d.render_icons_to_surfaces rasterOk pixelsOf allocOk).needs_render
        = false) ∧
    ((d.wayland.isNone || !d.needs_render) = true →
      d.render_icons_to_surfaces rasterOk pixelsOf allocOk = d) := by
  constructor
  · intro hw hr
    have hcond : (d.wayland.isNone || !d.needs_render) = false := by
      cases hww : d.wayland with
      | none => rw [hww] at hw; cases hw
      | some w => simp [hww, hr]
    simp [IconDaemon.render_icons_to_surfaces, hcond]
  · intro h
    simp [IconDaemon.render_icons_to_surfaces, h]

theorem render_pass_clears_dirty_flag_witness :
    (dEx1.render_icons_to_surfaces (fun _ => true) (fun _ => [])
      (fun _ => true)).needs_render = false ∧
    dEx2.render_icons_to_surfaces (fun _ => true) (fun _ => [])
      (fun _ => true) = dEx2 :=
  ⟨(render_pass_clears_dirty_flag dEx1 (fun _ => true) (fun _ => [])
      (fun _ => true)).1 (by decide) (by decide),
   (render_pass_clears_dirty_flag dEx2 (fun _ => true) (fun _ => [])
      (fun _ => true)).2 (by decide)⟩

/-! ### C2: the hidden-entry filter -/

/-- `add_icon` for one path never touches the icon-table entry of a
different path. -/
theorem add_icon_preserves_other_icons (d : IconDaemon) (q p : FsPath)
    (hne : ¬q = p) :
    lookupA (d.add_icon q).icons p = lookupA d.icons p := by
  unfold IconDaemon.add_icon
  by_cases hq : (lookupA d.icons q).isSome
  · simp [hq]
  · cases hw : d.wayland with
    | none =>
      have hpq : ¬p = q := fun hh => hne hh.symm
      simp [hq, hw, lookupA_insertA, hpq]
    | some w =>
      have hpq : ¬p = q := fun hh => hne hh.symm
      simp [hq, hw, lookupA_insertA, hpq]

/-- The entry loop of `scan_desktop` never creates an icon for a hidden
name: folding over any entry list leaves a hidden path's icon-table entry
exactly as it was. -/
theorem scan_fold_skips_hidden (entries : List FsPath) (d : IconDaemon)
    (p : FsPath) (hp : startsWithDot p.name = true) :
    lookupA (entries.foldl
        (fun s q => if startsWithDot q.name then s else s.add_icon q)
        d).icons p
      = lookupA d.icons p := by
  induction entries generalizing d with
  | nil => rfl
  | cons e rest ih =>
    rw [List.foldl_cons]
    by_cases he : startsWithDot e.name = true
    · rw [if_pos he]; exact ih d
    · rw [if_neg he, ih]
      have hne : ¬e = p := by
        intro hh
        rw [hh, hp] at he
        exact he rfl
      exact add_icon_preserves_other_icons d e p hne

/-- C2 counterexample: a filesystem Create event for a hidden path DOES
create an icon for it - `handle_fs_event` applies no hidden filter, so the
icon table can contain a hidden entry. -/
theorem hidden_create_event_adds_icon :
    startsWithDot hpEx.name = true ∧
    (lookupA (dEx2.handle_fs_event { kind := .createK, paths := [hpEx] }).icons
      hpEx).isSome = true :=
  ⟨by decide, by decide⟩

/-- C2 (amended): hidden names (leading `.`) are filtered only during the
initial scan: `scan_desktop` never creates an icon for them (a hidden
path's icon-table entry is untouched by a scan).  A Create event carries no
such filter and does add hidden icons. -/
theorem scan_desktop_skips_hidden (d : IconDaemon) (dir_exists : Bool)
    (entries : List FsPath) (p : FsPath)
    (hp : startsWithDot p.name = true) :
    lookupA (d.scan_desktop dir_exists entries).icons p
      = lookupA d.icons p := by
  unfold IconDaemon.scan_desktop
  by_cases hd : dir_exists = true
  · simp only [hd, Bool.not_true, Bool.false_eq_true, if_false]
    exact scan_fold_skips_hidden entries d p hp
  · have hd' : dir_exists = false := by
      cases dir_exists
      · rfl
      · exact absurd rfl hd
    simp [hd']

theorem scan_desktop_skips_hidden_witness :
    lookupA (dEx2.scan_desktop true [pEx, hpEx]).icons hpEx
      = lookupA dEx2.icons hpEx :=
  scan_desktop_skips_hidden dEx2 true [pEx, hpEx] hpEx (by decide)

/-! ### C7: button translation on click -/

/-- C7: a pressed `PointerButton` routed to a mapped icon invokes
`on_click` with the normalised button - 1 for raw code 272, 3 for 273,
2 for 274, the raw code itself otherwise - and a released button
(`pressed = false`) invokes no `on_click`. -/
theorem button_translation (d : IconDaemon) (sid : Nat) (b : Nat) (x y : Int)
    (path : FsPath) (icon : DesktopIcon) (clickOk : FsPath → Nat → Bool) :
    (lookupA d.surface_to_path sid = some path →
      lookupA d.icons path = some icon →
      (d.handle_input_events [.pointerButton sid b true x y] clickOk).2
        = [(path, translate_button b)]) ∧
    (d.handle_input_events [.pointerButton sid b false x y] clickOk).2 = [] ∧
    translate_button 272 = 1 ∧ translate_button 273 = 3 ∧
    translate_button 274 = 2 ∧
    (¬b = 272 → ¬b = 273 → ¬b = 274 → translate_button b = b) := by
  refine ⟨?_, ?_, by decide, by decide, by decide, ?_⟩
  · intro h1 h2
    simp [IconDaemon.handle_input_events, IconDaemon.handle_one_input, h1, h2]
  · simp [IconDaemon.handle_input_events, IconDaemon.handle_one_input]
  · intro h1 h2 h3
    simp [translate_button, h1, h2, h3]

theorem button_translation_witness :
    (dEx1.handle_input_events [.pointerButton 1 272 true 0 0]
      (fun _ _ => true)).2 = [(pEx, translate_button 272)] ∧
    (dEx1.handle_input_events [.pointerButton 1 273 false 0 0]
      (fun _ _ => true)).2 = [] :=
  ⟨(button_translation dEx1 1 272 0 0 pEx { hovered := false }
      (fun _ _ => true)).1 (by decide) (by decide),
   (button_translation dEx1 1 273 0 0 pEx { hovered := false }
      (fun _ _ => true)).2.1⟩

/-! ### C6: the RGBA to ARGB8888 channel swap -/

theorem getD_cons_four (a0 a1 a2 a3 : Nat) (l : List Nat) (n : Nat) :
    (a0 :: a1 :: a2 :: a3 :: l).getD (n + 4) 0 = l.getD n 0 := by
  have h : n + 4 = n + 1 + 1 + 1 + 1 := by ring
  rw [h, List.getD_cons_succ, List.getD_cons_succ, List.getD_cons_succ,
    List.getD_cons_succ]

theorem convertRgbaToArgb_getD (i : Nat) :
    ∀ pixels : List Nat, 4 * i + 3 < pixels.length →
      (convertRgbaToArgb pixels).getD (4 * i) 0 = pixels.getD (4 * i + 2) 0 ∧
      (convertRgbaToArgb pixels).getD (4 * i + 1) 0
        = pixels.getD (4 * i + 1) 0 ∧
      (convertRgbaToArgb pixels).getD (4 * i + 2) 0 = pixels.getD (4 * i) 0 ∧
      (convertRgbaToArgb pixels).getD (4 * i + 3) 0
        = pixels.getD (4 * i + 3) 0 := by
  induction i with
  | zero =>
    intro pixels hlen
    rcases pixels with _ | ⟨r, pixels⟩
    · simp only [List.length_nil] at hlen; exact absurd hlen (by omega)
    rcases pixels with _ | ⟨g, pixels⟩
    · simp only [List.length_cons, List.length_nil] at hlen
      exact absurd hlen (by omega)
    rcases pixels with _ | ⟨b, pixels⟩
    · simp only [List.length_cons, List.length_nil] at hlen
      exact absurd hlen (by omega)
    rcases pixels with _ | ⟨a, rest⟩
    · simp only [List.length_cons, List.length_nil] at hlen
      exact absurd hlen (by omega)
    simp [convertRgbaToArgb]
  | succ i ih =>
    intro pixels hlen
    rcases pixels with _ | ⟨r, pixels⟩
    · simp only [List.length_nil] at hlen; exact absurd hlen (by omega)
    rcases pixels with _ | ⟨g, pixels⟩
    · simp only [List.length_cons, List.length_nil] at hlen
      exact absurd hlen (by omega)
    rcases pixels with _ | ⟨b, pixels⟩
    · simp only [List.length_cons, List.length_nil] at hlen
      exact absurd hlen (by omega)
    rcases pixels with _ | ⟨a, rest⟩
    · simp only [List.length_cons, List.length_nil] at hlen
      exact absurd hlen (by omega)
    have hrest : 4 * i + 3 < rest.length := by
      simp only [List.length_cons] at hlen; omega
    obtain ⟨ih0, ih1, ih2, ih3⟩ := ih rest hrest
    have h0 : 4 * (i + 1) = 4 * i + 4 := by ring
    have h1 : 4 * i + 4 + 1 = 4 * i + 1 + 4 := by ring
    have h2 : 4 * i + 4 + 2 = 4 * i + 2 + 4 := by ring
    have h3 : 4 * i + 4 + 3 = 4 * i + 3 + 4 := by ring
    have hc : convertRgbaToArgb (r :: g :: b :: a :: rest)
        = b :: g :: r :: a :: convertRgbaToArgb rest := rfl
    refine ⟨?_, ?_, ?_, ?_⟩
    · rw [hc, h0, h2, getD_cons_four, getD_cons_four, ih0]
    · rw [hc, h0, h1, getD_cons_four, getD_cons_four, ih1]
    · rw [hc, h0, h2, getD_cons_four, getD_cons_four, ih2]
    · rw [hc, h0, h3, getD_cons_four, getD_cons_four, ih3]

/-- C6: when `attach_buffer` actually attaches, the canvas it wrote holds,
for every pixel index `i` whose source bytes are `r,g,b,a` at offsets
`4i..4i+3`, the bytes `b,g,r,a` at offsets `4i, 4i+1, 4i+2, 4i+3`
(ARGB8888 little-endian). -/
theorem attach_buffer_channel_swap (s : WaylandState) (sid : Nat)
    (pixels : List Nat) (w h : Nat) (allocOk : Bool) (s' : WaylandState)
    (canvas : List Nat) (i : Nat)
    (hok : s.attach_buffer sid pixels w h allocOk = .ok (s', some canvas))
    (hi : 4 * i + 3 < pixels.length) :
    canvas.getD (4 * i) 0 = pixels.getD (4 * i + 2) 0 ∧
    canvas.getD (4 * i + 1) 0 = pixels.getD (4 * i + 1) 0 ∧
    canvas.getD (4 * i + 2) 0 = pixels.getD (4 * i) 0 ∧
    canvas.getD (4 * i + 3) 0 = pixels.getD (4 * i + 3) 0 := by
  have hcanvas : canvas = convertRgbaToArgb pixels := by
    unfold WaylandState.attach_buffer at hok
    cases hl : lookupA s.surfaces sid with
    | none => rw [hl] at hok; cases hok
    | some dta =>
      rw [hl] at hok
      by_cases hcf : dta.configured = true
      · simp only [hcf, Bool.not_true, Bool.false_eq_true, if_false] at hok
        split_ifs at hok with hsz hal
        have h9 := congrArg
          (fun r => match r with
            | Except.ok pr => pr.2
            | Except.error _ => (none : Option (List Nat))) hok
        simpa using h9.symm
      · have hcf' : dta.configured = false := by
          cases hcc : dta.configured
          · rfl
          · exact absurd hcc hcf
        simp [hcf'] at hok
  subst hcanvas
  exact convertRgbaToArgb_getD i pixels hi

theorem attach_buffer_channel_swap_witness :
    ([3, 2, 1, 4] : List Nat).getD (4 * 0) 0
      = ([1, 2, 3, 4] : List Nat).getD (4 * 0 + 2) 0 ∧
    ([3, 2, 1, 4] : List Nat).getD (4 * 0 + 1) 0
      = ([1, 2, 3, 4] : List Nat).getD (4 * 0 + 1) 0 ∧
    ([3, 2, 1, 4] : List Nat).getD (4 * 0 + 2) 0
      = ([1, 2, 3, 4] : List Nat).getD (4 * 0) 0 ∧
    ([3, 2, 1, 4] : List Nat).getD (4 * 0 + 3) 0
      = ([1, 2, 3, 4] : List Nat).getD (4 * 0 + 3) 0 :=
  attach_buffer_channel_swap wExC 1 [1, 2, 3, 4] 1 1 true wExCAfter
    [3, 2, 1, 4] 0 rfl (by decide)

/-! ### C4: no buffer before the first configure -/

/-- The inductive invariant behind C4: every surface currently holding a
buffer has its configured bit set. -/
def InvW (s : WaylandState) : Prop :=
  ∀ sid dta, lookupA s.surfaces sid = some dta → dta.buffer.isSome = true →
    dta.configured = true

theorem invW_step (s : WaylandState) (op : WOp) (h : InvW s) :
    InvW (s.stepW op) := by
  cases op with
  | createOp x y w hh =>
    intro sid dta hl hb
    simp only [WaylandState.stepW, WaylandState.create_surface,
      lookupA_insertA] at hl
    by_cases he : sid = s.next_surface_id
    · rw [if_pos he] at hl
      cases hl
      cases hb
    · rw [if_neg he] at hl
      exact h sid dta hl hb
  | destroyOp k =>
    intro sid dta hl hb
    simp only [WaylandState.stepW, WaylandState.destroy_surface,
      lookupA_eraseA] at hl
    by_cases he : sid = k
    · rw [if_pos he] at hl; cases hl
    · rw [if_neg he] at hl
      exact h sid dta hl hb
  | setPosOp k x y =>
    intro sid dta hl hb
    simp only [WaylandState.stepW, WaylandState.set_surface_position] at hl
    cases hk : lookupA s.surfaces k with
    | none => rw [hk] at hl; exact h sid dta hl hb
    | some old =>
      rw [hk] at hl
      simp only [lookupA_insertA] at hl
      by_cases he : sid = k
      · rw [if_pos he] at hl
        cases hl
        exact h k old hk hb
      · rw [if_neg he] at hl
        exact h sid dta hl hb
  | attachOp k pixels w hh allocOk =>
    intro sid dta hl hb
    simp only [WaylandState.stepW] at hl
    revert hl
    unfold WaylandState.attach_buffer
    cases hk : lookupA s.surfaces k with
    | none => intro hl; exact h sid dta hl hb
    | some old =>
      by_cases hcf : old.configured = true
      · simp only [hcf, Bool.not_true, Bool.false_eq_true, if_false]
        split_ifs with hsz hal
        · intro hl; exact h sid dta hl hb
        · intro hl; exact h sid dta hl hb
        · intro hl
          simp only [lookupA_insertA] at hl
          by_cases he : sid = k
          · rw [if_pos he] at hl
            cases hl
            rfl
          · rw [if_neg he] at hl
            exact h sid dta hl hb
      · have hcf' : old.configured = false := by
          cases hcc : old.configured
          · rfl
          · exact absurd hcc hcf
        simp only [hcf', Bool.not_false, if_true]
        intro hl; exact h sid dta hl hb
  | configureOp k w hh =>
    intro sid dta hl hb
    simp only [WaylandState.stepW, WaylandState.configure] at hl
    cases hk : lookupA s.surfaces k with
    | none => rw [hk] at hl; exact h sid dta hl hb
    | some old =>
      rw [hk] at hl
      simp only [lookupA_insertA] at hl
      by_cases he : sid = k
      · rw [if_pos he] at hl
        cases hl
        rfl
      · rw [if_neg he] at hl
        exact h sid dta hl hb
  | closedOp k =>
    intro sid dta hl hb
    simp only [WaylandState.stepW, WaylandState.closed_surface,
      lookupA_eraseA] at hl
    by_cases he : sid = k
    · rw [if_pos he] at hl; cases hl
    · rw [if_neg he] at hl
      exact h sid dta hl hb

theorem invW_runW (ops : List WOp) : InvW (runW ops) := by
  have hgen : ∀ (l : List WOp) (s : WaylandState), InvW s →
      InvW (l.foldl WaylandState.stepW s) := by
    intro l
    induction l with
    | nil => intro s hs; exact hs
    | cons op rest ih => intro s hs; exact ih _ (invW_step s op hs)
  refine hgen ops initWayland ?_
  intro sid dta hl hb
  cases hl

/-- C4: a buffer is attached only to a configured surface.  First, whenever
`attach_buffer` actually attaches (returns `some canvas`), the surface's
configured bit was true at that moment; second, in every client state
reachable from a fresh connection, a surface holding a buffer is
configured - and since only the configure handler sets that bit, no surface
ever carries a buffer before its first configure event. -/
theorem attach_only_after_configure :
    (∀ (s : WaylandState) (sid : Nat) (pixels : List Nat) (w h : Nat)
        (allocOk : Bool) (s' : WaylandState) (canvas : List Nat),
      s.attach_buffer sid pixels w h allocOk = .ok (s', some canvas) →
      ∃ dta, lookupA s.surfaces sid = some dta ∧ dta.configured = true) ∧
    (∀ (ops : List WOp) (sid : Nat) (dta : IconSurfaceData),
      lookupA (runW ops).surfaces sid = some dta → dta.buffer.isSome = true →
      dta.configured = true) := by
  constructor
  · intro s sid pixels w h allocOk s' canvas hok
    unfold WaylandState.attach_buffer at hok
    cases hl : lookupA s.surfaces sid with
    | none => rw [hl] at hok; cases hok
    | some dta =>
      rw [hl] at hok
      refine ⟨dta, rfl, ?_⟩
      by_cases hcf : dta.configured = true
      · exact hcf
      · have hcf' : dta.configured = false := by
          cases hcc : dta.configured
          · rfl
          · exact absurd hcc hcf
        simp [hcf'] at hok
  · intro ops sid dta hl hb
    exact invW_runW ops sid dta hl hb

theorem attach_only_after_configure_witness :
    surfConfiguredBuf.configured = true :=
  attach_only_after_configure.2 opsEx4 1 surfConfiguredBuf (by decide)
    (by decide)

/-! ### C5: the surface bimap stays consistent -/

theorem invD_frame (d d' : IconDaemon) (h : InvD d)
    (hp : d'.path_to_surface = d.path_to_surface)
    (hs : d'.surface_to_path = d.surface_to_path)
    (hi : ∀ p, (lookupA d.icons p).isSome = true →
      (lookupA d'.icons p).isSome = true)
    (hn : nextId d' = nextId d)
    (hw : d'.wayland.isNone = d.wayland.isNone) :
    InvD d' := by
  obtain ⟨hbij, hsub, hbound, hnone⟩ := h
  refine ⟨?_, ?_, ?_, ?_⟩
  · intro q t; rw [hp, hs]; exact hbij q t
  · intro q hq; rw [hp] at hq; exact hi q (hsub q hq)
  · intro t ht; rw [hs] at ht; rw [hn]; exact hbound t ht
  · intro hd'
    have hdn : d.wayland = none := by
      cases hww : d.wayland with
      | none => rfl
      | some w =>
        rw [hd', hww] at hw
        simp at hw
    rw [hp, hs]
    exact hnone hdn

theorem invD_set_needs_render (d : IconDaemon) (b : Bool) (h : InvD d) :
    InvD { d with needs_render := b } :=
  invD_frame d _ h rfl rfl (fun _ hq => hq) rfl rfl

theorem invD_foldl {α : Type} (f : IconDaemon → α → IconDaemon)
    (hf : ∀ s a, InvD s → InvD (f s a)) :
    ∀ (l : List α) (s : IconDaemon), InvD s → InvD (l.foldl f s) := by
  intro l
  induction l with
  | nil => intro s hs; exact hs
  | cons a rest ih => intro s hs; exact ih (f s a) (hf s a hs)

theorem invD_initD (cfg : Config) (hasW : Bool) : InvD (initD cfg hasW) := by
  refine ⟨?_, ?_, ?_, ?_⟩
  · intro p sid
    constructor
    · intro hq; simp [initD, lookupA] at hq
    · intro hq; simp [initD, lookupA] at hq
  · intro p hq; simp [initD, lookupA] at hq
  · intro sid hq; simp [initD, lookupA] at hq
  · intro _; exact ⟨rfl, rfl⟩

theorem invD_add_icon (d : IconDaemon) (p : FsPath) (h : InvD d) :
    InvD (d.add_icon p) := by
  obtain ⟨hbij, hsub, hbound, hnone⟩ := h
  unfold IconDaemon.add_icon
  by_cases hi : (lookupA d.icons p).isSome = true
  · rw [if_pos hi]
    exact ⟨hbij, hsub, hbound, hnone⟩
  · rw [if_neg hi]
    have hip : lookupA d.icons p = none := by
      cases hii : lookupA d.icons p
      · rfl
      · rw [hii] at hi; exact absurd rfl hi
    have hpts : lookupA d.path_to_surface p = none := by
      cases hpp : lookupA d.path_to_surface p
      · rfl
      · exfalso
        have h2 := hsub p (by rw [hpp]; rfl)
        rw [hip] at h2
        cases h2
    cases hw : d.wayland with
    | none =>
      dsimp only
      refine invD_frame d _ ⟨hbij, hsub, hbound, hnone⟩ rfl rfl ?_ ?_ ?_
      · intro q hq
        rw [lookupA_insertA]
        by_cases hqp : q = p
        · rw [if_pos hqp]; rfl
        · rw [if_neg hqp]; exact hq
      · simp [nextId, hw]
      · simp [hw]
    | some w =>
      dsimp only [WaylandState.create_surface]
      refine ⟨?_, ?_, ?_, ?_⟩
      · intro q t
        rw [lookupA_insertA, lookupA_insertA]
        by_cases hq : q = p
        · rw [if_pos hq]
          by_cases ht : t = w.next_surface_id
          · rw [if_pos ht]
            constructor
            · intro _; rw [hq]
            · intro _; rw [ht]
          · rw [if_neg ht]
            constructor
            · intro hh
              injection hh with hh'
              exact absurd hh'.symm ht
            · intro hh
              exfalso
              rw [hq] at hh
              have h2 := (hbij p t).mpr hh
              rw [hpts] at h2
              cases h2
        · by_cases ht : t = w.next_surface_id
          · rw [if_neg hq, if_pos ht]
            constructor
            · intro hh
              exfalso
              have h2 := (hbij q t).mp hh
              have h3 := hbound t (by rw [h2]; rfl)
              simp only [nextId, hw] at h3
              rw [ht] at h3
              exact absurd h3 (lt_irrefl _)
            · intro hh
              injection hh with hh'
              exact absurd hh'.symm hq
          · rw [if_neg hq, if_neg ht]
            exact hbij q t
      · intro q hq
        rw [lookupA_insertA] at hq
        rw [lookupA_insertA]
        by_cases hqp : q = p
        · rw [if_pos hqp]; rfl
        · rw [if_neg hqp] at hq; rw [if_neg hqp]; exact hsub q hq
      · intro t ht
        rw [lookupA_insertA] at ht
        show t < w.next_surface_id + 1
        by_cases ht' : t = w.next_surface_id
        · omega
        · rw [if_neg ht'] at ht
          have h2 := hbound t ht
          simp only [nextId, hw] at h2
          omega
      · intro hd'
        cases hd'

theorem invD_remove_icon (d : IconDaemon) (p : FsPath) (h : InvD d) :
    InvD (d.remove_icon p) := by
  obtain ⟨hbij, hsub, hbound, hnone⟩ := h
  unfold IconDaemon.remove_icon
  cases hi : lookupA d.icons p with
  | none => exact ⟨hbij, hsub, hbound, hnone⟩
  | some icon =>
    dsimp only
    cases hpt : lookupA d.path_to_surface p with
    | none =>
      refine ⟨?_, ?_, ?_, ?_⟩
      · intro q t; exact hbij q t
      · intro q hq
        rw [lookupA_eraseA]
        by_cases hqp : q = p
        · exfalso
          rw [hqp, hpt] at hq
          cases hq
        · rw [if_neg hqp]; exact hsub q hq
      · intro t ht; exact hbound t ht
      · intro hd'; exact hnone hd'
    | some sid =>
      have hstp : lookupA d.surface_to_path sid = some p := (hbij p sid).mp hpt
      refine ⟨?_, ?_, ?_, ?_⟩
      · intro q t
        rw [lookupA_eraseA, lookupA_eraseA]
        by_cases hqp : q = p
        · by_cases ht : t = sid
          · rw [if_pos hqp, if_pos ht]
            constructor <;> intro hh <;> cases hh
          · rw [if_pos hqp, if_neg ht]
            constructor
            · intro hh; cases hh
            · intro hh
              exfalso
              rw [hqp] at hh
              have h2 := (hbij p t).mpr hh
              rw [hpt] at h2
              injection h2 with h3
              exact absurd h3.symm ht
        · by_cases ht : t = sid
          · rw [if_neg hqp, if_pos ht]
            constructor
            · intro hh
              exfalso
              have h2 := (hbij q t).mp hh
              rw [ht, hstp] at h2
              injection h2 with h3
              exact absurd h3.symm hqp
            · intro hh; cases hh
          · rw [if_neg hqp, if_neg ht]; exact hbij q t
      · intro q hq
        rw [lookupA_eraseA] at hq
        rw [lookupA_eraseA]
        by_cases hqp : q = p
        · rw [if_pos hqp] at hq; cases hq
        · rw [if_neg hqp] at hq; rw [if_neg hqp]; exact hsub q hq
      · intro t ht
        rw [lookupA_eraseA] at ht
        by_cases hts : t = sid
        · rw [if_pos hts] at ht; cases ht
        · rw [if_neg hts] at ht
          have h2 := hbound t ht
          have hnid : nextId
              { d with
                  icons := eraseA d.icons p,
                  path_to_surface := eraseA d.path_to_surface p,
                  wayland := d.wayland.map
                    (fun w => w.destroy_surface sid),
                  surface_to_path := eraseA d.surface_to_path sid }
              = nextId d := by
            cases hww : d.wayland <;>
              simp [nextId, hww, WaylandState.destroy_surface]
          rw [hnid]
          exact h2
      · intro hd'
        exfalso
        have hdn : d.wayland = none := by
          cases hww : d.wayland with
          | none => rfl
          | some w =>
            rw [hww] at hd'
            cases hd'
        have hmaps := hnone hdn
        rw [hmaps.1] at hpt
        cases hpt

theorem set_surface_position_next (w : WaylandState) (sid : Nat) (x y : Int) :
    (w.set_surface_position sid x y).next_surface_id = w.next_surface_id := by
  unfold WaylandState.set_surface_position
  cases lookupA w.surfaces sid <;> rfl

theorem attach_buffer_next_all (w : WaylandState) (sid : Nat)
    (pixels : List Nat) (pw ph : Nat) (allocOk : Bool) :
    (match w.attach_buffer sid pixels pw ph allocOk with
     | .ok res => res.1.next_surface_id
     | .error _ => w.next_surface_id) = w.next_surface_id := by
  unfold WaylandState.attach_buffer
  cases lookupA w.surfaces sid with
  | none => rfl
  | some dta =>
    by_cases hcf : dta.configured = true
    · simp only [hcf, Bool.not_true, Bool.false_eq_true, if_false]
      split_ifs <;> rfl
    · have hcf' : dta.configured = false := by
        cases hcc : dta.configured
        · rfl
        · exact absurd hcc hcf
      simp [hcf']

theorem apply_server_event_next (w : WaylandState) (ev : ServerEvent) :
    (w.apply_server_event ev).next_surface_id = w.next_surface_id := by
  cases ev with
  | configureEv sid a b =>
    show (w.configure sid a b).next_surface_id = w.next_surface_id
    unfold WaylandState.configure
    cases lookupA w.surfaces sid <;> rfl
  | closedEv sid => rfl
  | pointerEv e => rfl

theorem fold_server_events_next (evs : List ServerEvent) (w : WaylandState) :
    (evs.foldl WaylandState.apply_server_event w).next_surface_id
      = w.next_surface_id := by
  induction evs generalizing w with
  | nil => rfl
  | cons e rest ih => rw [List.foldl_cons, ih, apply_server_event_next]

theorem invD_scan (d : IconDaemon) (dir_exists : Bool) (entries : List FsPath)
    (h : InvD d) : InvD (d.scan_desktop dir_exists entries) := by
  unfold IconDaemon.scan_desktop
  cases dir_exists with
  | false => exact h
  | true =>
    simp only [Bool.not_true, Bool.false_eq_true, if_false]
    refine invD_foldl _ ?_ entries d h
    intro s q hs
    by_cases hsd : startsWithDot q.name = true
    · simpa [hsd] using hs
    · have hsd' : startsWithDot q.name = false := by
        cases hss : startsWithDot q.name
        · rfl
        · exact absurd hss hsd
      simp only [hsd', Bool.false_eq_true, if_false]
      exact invD_add_icon s q hs

theorem invD_handle_fs_event (d : IconDaemon) (e : FsEvent) (h : InvD d) :
    InvD (d.handle_fs_event e) := by
  unfold IconDaemon.handle_fs_event
  cases e with
  | mk kind paths =>
    cases kind with
    | createK =>
      exact invD_set_needs_render _ true
        (invD_foldl _ (fun s q hs => invD_add_icon s q hs) paths d h)
    | removeK =>
      exact invD_set_needs_render _ true
        (invD_foldl _ (fun s q hs => invD_remove_icon s q hs) paths d h)
    | modifyK =>
      refine invD_set_needs_render _ true
        (invD_foldl _ ?_ paths d h)
      intro s q hs
      by_cases hq : (lookupA s.icons q).isSome = true
      · simp only [hq, if_true]
        exact invD_add_icon _ q (invD_remove_icon s q hs)
      · have hq' : (lookupA s.icons q).isSome = false := by
          cases hqq : (lookupA s.icons q).isSome
          · rfl
          · exact absurd hqq hq
        simpa [hq'] using hs
    | otherK => exact h

theorem invD_update_icons (d : IconDaemon) (gone : FsPath → Bool)
    (h : InvD d) : InvD (d.update_icons gone) := by
  unfold IconDaemon.update_icons
  exact invD_foldl _ (fun s q hs => invD_remove_icon s q hs) _ d h

theorem invD_handle_one_input (clickOk : FsPath → Nat → Bool)
    (acc : IconDaemon × List (FsPath × Nat)) (ev : InputEvent)
    (h : InvD acc.1) :
    InvD (IconDaemon.handle_one_input clickOk acc ev).1 := by
  unfold IconDaemon.handle_one_input
  cases ev with
  | pointerEnter sid x y =>
    dsimp only
    cases h1 : lookupA acc.1.surface_to_path sid with
    | none => exact h
    | some path =>
      dsimp only
      cases h2 : lookupA acc.1.icons path with
      | none => exact h
      | some icon =>
        dsimp only
        refine invD_frame acc.1 _ h rfl rfl ?_ rfl rfl
        intro q hq
        rw [lookupA_insertA]
        by_cases hqp : q = path
        · rw [if_pos hqp]; rfl
        · rw [if_neg hqp]; exact hq
  | pointerLeave sid =>
    dsimp only
    cases h1 : lookupA acc.1.surface_to_path sid with
    | none => exact h
    | some path =>
      dsimp only
      cases h2 : lookupA acc.1.icons path with
      | none => exact h
      | some icon =>
        dsimp only
        refine invD_frame acc.1 _ h rfl rfl ?_ rfl rfl
        intro q hq
        rw [lookupA_insertA]
        by_cases hqp : q = path
        · rw [if_pos hqp]; rfl
        · rw [if_neg hqp]; exact hq
  | pointerMotion sid x y => exact h
  | pointerButton sid b pressed x y =>
    dsimp only
    cases pressed with
    | false => exact h
    | true =>
      cases h1 : lookupA acc.1.surface_to_path sid with
      | none => exact h
      | some path =>
        dsimp only
        cases h2 : lookupA acc.1.icons path with
        | none => exact h
        | some icon =>
          dsimp only
          by_cases hck : clickOk path (translate_button b) = true
          · simp only [hck, if_true]
            exact invD_frame acc.1 _ h rfl rfl (fun q hq => hq) rfl rfl
          · have hck' : clickOk path (translate_button b) = false := by
              cases hcc : clickOk path (translate_button b)
              · rfl
              · exact absurd hcc hck
            simp only [hck', Bool.false_eq_true, if_false]
            exact h

theorem invD_input_fold (clickOk : FsPath → Nat → Bool)
    (evs : List InputEvent) :
    ∀ acc : IconDaemon × List (FsPath × Nat), InvD acc.1 →
      InvD ((evs.foldl (IconDaemon.handle_one_input clickOk) acc)).1 := by
  induction evs with
  | nil => intro acc h; exact h
  | cons e rest ih =>
    intro acc h
    exact ih _ (invD_handle_one_input clickOk acc e h)

theorem invD_handle_wayland_input (d : IconDaemon)
    (clickOk : FsPath → Nat → Bool) (h : InvD d) :
    InvD (d.handle_wayland_input clickOk).1 := by
  unfold IconDaemon.handle_wayland_input
  cases hww : d.wayland with
  | none => exact h
  | some w =>
    unfold IconDaemon.handle_input_events
    refine invD_input_fold clickOk w.input_events _ ?_
    refine invD_frame d _ h rfl rfl (fun q hq => hq) ?_ ?_
    · simp [nextId, hww]
    · simp [hww]

theorem invD_render_one (d : IconDaemon) (rasterOk : FsPath → Bool)
    (pixelsOf : FsPath → List Nat) (allocOk : FsPath → Bool) (path : FsPath)
    (h : InvD d) : InvD (d.render_one rasterOk pixelsOf allocOk path) := by
  unfold IconDaemon.render_one
  dsimp only
  cases hs : lookupA d.path_to_surface path with
  | none => exact h
  | some sid =>
    by_cases h1 : (lookupA d.icons path).isNone = true
    · simp only [h1, if_true]; exact h
    · have h1' : (lookupA d.icons path).isNone = false := by
        cases hqq : (lookupA d.icons path).isNone
        · rfl
        · exact absurd hqq h1
      simp only [h1', Bool.false_eq_true, if_false]
      by_cases h2 : d.config.icon_size = 0
      · simp only [h2, if_pos]; exact h
      · rw [if_neg h2]
        by_cases h3 : rasterOk path = true
        · simp only [h3, Bool.not_true, Bool.false_eq_true, if_false]
          cases hww : d.wayland with
          | none => exact h
          | some w =>
            dsimp only
            cases hat : w.attach_buffer sid (pixelsOf path)
                d.config.icon_size (d.config.icon_size + LABEL_HEIGHT)
                (allocOk path) with
            | error e => exact h
            | ok res =>
              dsimp only
              refine invD_frame d _ h rfl rfl (fun q hq => hq) ?_ ?_
              · have hnx := attach_buffer_next_all w sid (pixelsOf path)
                  d.config.icon_size (d.config.icon_size + LABEL_HEIGHT)
                  (allocOk path)
                rw [hat] at hnx
                dsimp only at hnx
                show res.1.next_surface_id = nextId d
                rw [hnx]
                simp [nextId, hww]
              · simp [hww]
        · have h3' : rasterOk path = false := by
            cases hcc : rasterOk path
            · rfl
            · exact absurd hcc h3
          simp only [h3', Bool.not_false, if_true]
          exact h

theorem invD_render (d : IconDaemon) (rasterOk : FsPath → Bool)
    (pixelsOf : FsPath → List Nat) (allocOk : FsPath → Bool) (h : InvD d) :
    InvD (d.render_icons_to_surfaces rasterOk pixelsOf allocOk) := by
  unfold IconDaemon.render_icons_to_surfaces
  cases hcc : (d.wayland.isNone || !d.needs_render) with
  | true => simp only [hcc, if_true]; exact h
  | false =>
    simp only [hcc, Bool.false_eq_true, if_false]
    exact invD_set_needs_render _ false
      (invD_foldl _
        (fun s q hs => invD_render_one s rasterOk pixelsOf allocOk q hs)
        _ d h)

theorem invD_reposition (d : IconDaemon) (h : InvD d) :
    InvD d.reposition_all_icons := by
  unfold IconDaemon.reposition_all_icons
  dsimp only
  refine invD_foldl _ ?_ _ d h
  intro s pr hs
  by_cases hi : (lookupA s.icons pr.2.1).isSome = true
  · simp only [hi, if_true]
    cases hww : s.wayland with
    | none => exact hs
    | some w =>
      refine invD_frame s _ hs rfl rfl (fun q hq => hq) ?_ ?_
      · show (w.set_surface_position _ _ _).next_surface_id = nextId s
        rw [set_surface_position_next]
        simp [nextId, hww]
      · simp [hww]
  · have hi' : (lookupA s.icons pr.2.1).isSome = false := by
      cases hqq : (lookupA s.icons pr.2.1).isSome
      · rfl
      · exact absurd hqq hi
    simp only [hi', Bool.false_eq_true, if_false]
    exact hs

theorem invD_update_screen_dimensions (d : IconDaemon)
    (dims : Option (Nat × Nat)) (h : InvD d) :
    InvD (d.update_screen_dimensions dims) := by
  unfold IconDaemon.update_screen_dimensions
  cases hww : d.wayland with
  | none => exact h
  | some w =>
    dsimp only
    by_cases hc : (dims.getD (d.screen_width, d.screen_height)).1
        = d.screen_width ∧
        (dims.getD (d.screen_width, d.screen_height)).2 = d.screen_height
    · rw [if_pos hc]; exact h
    · rw [if_neg hc]
      refine invD_set_needs_render _ true (invD_reposition _ ?_)
      refine invD_frame d _ h rfl rfl (fun q hq => hq) ?_ ?_
      · simp [nextId, hww]
      · simp [hww]

theorem invD_dispatch (d : IconDaemon) (evs : List ServerEvent)
    (h : InvD d) : InvD (d.dispatch_wayland evs) := by
  unfold IconDaemon.dispatch_wayland
  cases hww : d.wayland with
  | none => exact h
  | some w =>
    refine invD_frame d _ h rfl rfl (fun q hq => hq) ?_ ?_
    · show (evs.foldl WaylandState.apply_server_event w).next_surface_id
        = nextId d
      rw [fold_server_events_next]
      simp [nextId, hww]
    · simp [hww]

theorem invD_stepD (d : IconDaemon) (op : DOp) (h : InvD d) :
    InvD (d.stepD op) := by
  cases op with
  | addOp p => exact invD_add_icon d p h
  | removeOp p => exact invD_remove_icon d p h
  | scanOp ex entries => exact invD_scan d ex entries h
  | fsEventOp e => exact invD_handle_fs_event d e h
  | inputOp clickOk => exact invD_handle_wayland_input d clickOk h
  | updateIconsOp gone => exact invD_update_icons d gone h
  | updateDimsOp dims => exact invD_update_screen_dimensions d dims h
  | renderOp r px a => exact invD_render d r px a h
  | dispatchOp evs => exact invD_dispatch d evs h

theorem invD_runD (cfg : Config) (hasW : Bool) (ops : List DOp) :
    InvD (runD (initD cfg hasW) ops) := by
  have hgen : ∀ (l : List DOp) (s : IconDaemon), InvD s →
      InvD (l.foldl IconDaemon.stepD s) := by
    intro l
    induction l with
    | nil => intro s hs; exact hs
    | cons op rest ih => intro s hs; exact ih _ (invD_stepD s op hs)
  exact hgen ops _ (invD_initD cfg hasW)

/-- C5: in every daemon state reachable from a fresh daemon by any sequence
of mutations (add, remove, scans, filesystem events, input handling, icon
updates, geometry changes, render passes, compositor dispatch), the surface
bimap is consistent - a path maps to a surface id in `path_to_surface`
exactly when that id maps back to the same path in `surface_to_path` - and
when no Wayland manager exists (so no icon can get a surface) both maps are
empty. -/
theorem bimap_consistent (cfg : Config) (hasW : Bool) (ops : List DOp) :
    (∀ p sid,
      lookupA (runD (initD cfg hasW) ops).path_to_surface p = some sid ↔
      lookupA (runD (initD cfg hasW) ops).surface_to_path sid = some p) ∧
    ((runD (initD cfg hasW) ops).wayland = none →
      (runD (initD cfg hasW) ops).path_to_surface = [] ∧
      (runD (initD cfg hasW) ops).surface_to_path = []) := by
  obtain ⟨h1, _, _, h4⟩ := invD_runD cfg hasW ops
  exact ⟨h1, h4⟩

theorem bimap_consistent_witness :
    lookupA (runD (initD { icon_size := 32, grid_spacing := 10 } true)
      [DOp.addOp pEx]).surface_to_path 1 = some pEx :=
  ((bimap_consistent { icon_size := 32, grid_spacing := 10 } true
      [DOp.addOp pEx]).1 pEx 1).mp (by decide)

end CvhIcons
